import Mathlib

/-!
Shallow embedding of the two BLE scanner scripts
(src/scripts/ble_scan_manu.py and src/scripts/ble_scan_uuid128.py).

Console lines are modelled as structured values (the temperature carried as
the exact rational t_centi / 100); byte buffers as lists of naturals
(entries below 256 on real inputs); the allow-list sets as lists of strings,
membership being the only operation the scripts use on them.
-/

/-- Result of trying to open an allow-list file. The Python loaders catch
only FileNotFoundError; any other OSError (e.g. permission denied)
propagates out of the function. -/
inductive OpenResult where
  | fileNotFound
  | otherError
  | ok (lines : List String)
deriving DecidableEq

/-- str.upper of Python on the ASCII data these scripts handle: uppercase
every character. Defined by mapping over the character list so that it
evaluates by kernel reduction. -/
def py_upper (s : String) : String := String.mk (s.data.map Char.toUpper)

/-- str.lower of Python on the ASCII data these scripts handle. -/
def py_lower (s : String) : String := String.mk (s.data.map Char.toLower)

/-- The per-line processing shared by both loaders, parameterized by the case
normalization: strip whitespace, discard blank lines, normalize. Python
builds a set; we keep a list, membership being all the scripts use. -/
def normalizeLines (norm : String → String) (lines : List String) : List String :=
  lines.filterMap (fun l => if l.trim = "" then none else some (norm l.trim))

/-- load_mac_list: one MAC per line, uppercased. The Except layer models the
uncaught exception on open errors other than FileNotFoundError; the Bool
records whether the missing-file warning was printed. -/
def load_mac_list : OpenResult → Except Unit (Option (List String) × Bool)
  | .ok lines => .ok (some (normalizeLines py_upper lines), false)
  | .fileNotFound => .ok (none, true)
  | .otherError => .error ()

/-- load_uuid128_list: one UUID per line, lowercased. -/
def load_uuid128_list : OpenResult → Except Unit (Option (List String) × Bool)
  | .ok lines => .ok (some (normalizeLines py_lower lines), false)
  | .fileNotFound => .ok (none, true)
  | .otherError => .error ()

/-- A BLE device as seen by the callbacks: address and optional name. -/
structure Device where
  address : String
  name : Option String
deriving DecidableEq

/-- One advertisement event: manufacturer data keyed by 16-bit company id,
service data keyed by uuid string, and RSSI. A missing service_data dict is
the empty list (the script replaces None by the empty dict). -/
structure AdvertisementData where
  manufacturer_data : List (Nat × List Nat)
  service_data : List (String × List Nat)
  rssi : Int
deriving DecidableEq

/-- dict.get on the manufacturer-data mapping. -/
def manuGet (md : List (Nat × List Nat)) (key : Nat) : Option (List Nat) :=
  (md.find? (fun p => p.1 = key)).map Prod.snd

/-- struct.unpack of two bytes as a little-endian signed 16-bit integer. -/
def unpack_s16le (lo hi : Nat) : Int :=
  let raw := lo % 256 + 256 * (hi % 256)
  if raw < 32768 then (raw : Int) else (raw : Int) - 65536

/-- parse_sensor_type_and_value (manufacturer variant): pulls the payload
registered under company id 0xFFFF; a falsy (absent or empty) payload or one
shorter than 3 bytes yields nothing; otherwise byte 0 is the sensor type and
bytes 1-2 the value bytes. -/
def parse_sensor_type_and_value (ad : AdvertisementData) :
    Option (Nat × Nat × Nat) :=
  match manuGet ad.manufacturer_data 0xFFFF with
  | none => none
  | some payload =>
    match payload with
    | t :: b1 :: b2 :: _ => some (t, b1, b2)
    | _ => none

/-- parse_service_data (service-data variant): a falsy (empty) payload yields
nothing; otherwise byte 0 is the sensor type and the two value bytes
payload[1:3] are present exactly when the payload has at least 3 bytes. -/
def parse_service_data : List Nat → Option (Nat × Option (Nat × Nat))
  | [] => none
  | t :: rest =>
    some (t, if 2 ≤ rest.length then some (rest.headD 0, (rest.drop 1).headD 0) else none)

/-- The format spec 02X of Python: uppercase hexadecimal digits, left-padded
with zeros to width at least 2. -/
def format02X (n : Nat) : String :=
  let ds := (Nat.toDigits 16 n).map Char.toUpper
  String.mk (List.replicate (2 - ds.length) '0' ++ ds)

/-- One printed line of the manufacturer-variant script, as structured data;
temp_c is the value printed with two decimals, as an exact rational. -/
inductive LineM where
  | temp (address : String) (rssi : Int) (temp_c : ℚ) (nome : String)
  | unknown (address : String) (rssi : Int) (typeHex : String) (nome : String)
deriving DecidableEq

/-- One printed line of the service-data-variant script (also shows the
matched uuid). -/
inductive LineU where
  | temp (address : String) (rssi : Int) (temp_c : ℚ) (uuid : String) (nome : String)
  | unknown (address : String) (rssi : Int) (typeHex : String) (uuid : String) (nome : String)
deriving DecidableEq

/-- Python truthiness of the mac_filter value as tested by ble_scan_manu.py:
None and the empty set are both falsy. -/
def truthy : Option (List String) → Bool
  | none => false
  | some l => !l.isEmpty

/-- callback of ble_scan_manu.py, returning the list of printed lines.
The address guard tests mac_filter for truthiness (line 34 of the script:
if mac_filter and ...), so a present-but-empty set skips the filter exactly
like None does. -/
def callbackManu (mac_filter : Option (List String)) (device : Device)
    (ad : AdvertisementData) : List LineM :=
  if truthy mac_filter = true ∧ py_upper device.address ∉ mac_filter.getD [] then []
  else
    match parse_sensor_type_and_value ad with
    | none => []
    | some (sensor_type, lo, hi) =>
      let nome := device.name.getD "Desconhecido"
      if sensor_type = 1 then
        [.temp device.address ad.rssi ((unpack_s16le lo hi : ℚ) / 100) nome]
      else if sensor_type ≠ 0 then
        [.unknown device.address ad.rssi (format02X sensor_type) nome]
      else []

/-- get_service_data_payload: the (uuid lowercased, payload) pairs, one per
service-data entry. -/
def get_service_data_payload (ad : AdvertisementData) : List (String × List Nat) :=
  ad.service_data.map (fun p => (py_lower p.1, p.2))

/-- Body of the for-loop in the callback of ble_scan_uuid128.py, processing
one (uuid, payload) service-data pair. The uuid filter is active whenever it
is not None, even when empty; a type-1 reading is printed as a temperature
only when the two value bytes are present, and otherwise falls through to
the branch for nonzero sensor types. -/
def processPair (uuid128_filter : Option (List String)) (device : Device)
    (rssi : Int) (uuid_str : String) (payload : List Nat) : List LineU :=
  if uuid128_filter.isSome = true ∧ uuid_str ∉ uuid128_filter.getD [] then []
  else
    match parse_service_data payload with
    | none => []
    | some (sensor_type, value_bytes) =>
      let nome := device.name.getD "Desconhecido"
      if sensor_type = 1 ∧ value_bytes.isSome = true then
        [.temp device.address rssi
          ((unpack_s16le (value_bytes.getD (0, 0)).1 (value_bytes.getD (0, 0)).2 : ℚ) / 100)
          uuid_str nome]
      else if sensor_type ≠ 0 then
        [.unknown device.address rssi (format02X sensor_type) uuid_str nome]
      else []

/-- callback of ble_scan_uuid128.py. Unlike the manufacturer variant, the mac
filter here is active whenever it is not None (line 49: is not None), even
when it is the empty set. -/
def callbackU (mac_filter uuid128_filter : Option (List String)) (device : Device)
    (ad : AdvertisementData) : List LineU :=
  if mac_filter.isSome = true ∧ py_upper device.address ∉ mac_filter.getD [] then []
  else
    (get_service_data_payload ad).flatMap
      (fun p => processPair uuid128_filter device ad.rssi p.1 p.2)

/-- Membership in a normalized allow-list, characterized. -/
lemma mem_normalizeLines (norm : String → String) (lines : List String) (x : String) :
    x ∈ normalizeLines norm lines ↔ ∃ l ∈ lines, l.trim ≠ "" ∧ x = norm l.trim := by
  simp only [normalizeLines, List.mem_filterMap]
  constructor
  · rintro ⟨l, hl, hf⟩
    by_cases h : l.trim = ""
    · simp [h] at hf
    · simp only [h, if_false, Option.some.injEq] at hf
      exact ⟨l, hl, h, hf.symm⟩
  · rintro ⟨l, hl, h, rfl⟩
    exact ⟨l, hl, by simp [h]⟩

/-- C1: the manufacturer variant collapses the present-but-empty allow-list
state into the absent state: with mac_filter loaded from an existing empty
file (the empty set), an event from an address not on the list is NOT
rejected and still prints its temperature line, while the service-data
variant with the same empty mac allow-list rejects the same device. -/
theorem c1_manu_empty_allowlist_not_rejected :
    callbackManu (some []) ⟨"AA:BB:CC:DD:EE:FF", none⟩
        ⟨[(0xFFFF, [0x01, 0xDC, 0x09])], [], -40⟩ =
      [LineM.temp "AA:BB:CC:DD:EE:FF" (-40) (631 / 25 : ℚ) "Desconhecido"] ∧
    callbackU (some []) none ⟨"AA:BB:CC:DD:EE:FF", none⟩
        ⟨[], [("0000180f-0000-1000-8000-00805f9b34fb", [0x01, 0xDC, 0x09])], -40⟩ = [] := by
  constructor
  · norm_num [callbackManu, truthy, parse_sensor_type_and_value, manuGet, unpack_s16le]
  · norm_num [callbackU]

/-- C2, counterexample: in the service-data variant a 1-byte type-1 payload
is decoded as (type 1, value absent) but is rendered through the
unknown-sensor branch, reporting type code 01 as an unknown sensor rather
than as a temperature with a suppressed numeric field. -/
theorem c2_counterexample :
    parse_service_data [1] = some (1, none) ∧
    processPair none ⟨"AA:BB:CC:DD:EE:FF", none⟩ (-40)
        "0000180f-0000-1000-8000-00805f9b34fb" [1] =
      [LineU.unknown "AA:BB:CC:DD:EE:FF" (-40) "01"
        "0000180f-0000-1000-8000-00805f9b34fb" "Desconhecido"] := by
  decide

/-- C2, amended: for every service-data payload of length 1 or 2 whose first
byte is 1, the decoder yields the known sensor type with an absent value and
the entry is not dropped, but the rendered line is the unknown-sensor line
carrying hex code 01, produced by the fall-through branch for nonzero sensor
types. -/
theorem c2_amended (p : List Nat) (h1 : p.head? = some 1) (hlen : p.length < 3) :
    parse_service_data p = some (1, none) ∧
    ∀ (dev : Device) (rssi : Int) (u : String),
      processPair none dev rssi u p =
        [LineU.unknown dev.address rssi (format02X 1) u (dev.name.getD "Desconhecido")] := by
  rcases p with _ | ⟨t, rest⟩
  · simp at h1
  · simp only [List.head?_cons, Option.some.injEq] at h1
    subst h1
    have hr : ¬ 2 ≤ rest.length := by
      simp only [List.length_cons] at hlen; omega
    constructor
    · simp [parse_service_data, hr]
    · intro dev rssi u
      simp [processPair, parse_service_data, hr]

/-- C2, witness for the amended theorem at the concrete payload [1]. -/
theorem c2_amended_witness :
    parse_service_data [1] = some (1, none) ∧
    ∀ (dev : Device) (rssi : Int) (u : String),
      processPair none dev rssi u [1] =
        [LineU.unknown dev.address rssi (format02X 1) u (dev.name.getD "Desconhecido")] :=
  c2_amended [1] (by decide) (by decide)

/-- C3, counterexample: a file that cannot be opened for a reason other than
non-existence (e.g. permission denied) is NOT handled: both loaders let the
exception propagate instead of returning the absent state, so such a load is
fatal. -/
theorem c3_counterexample :
    load_mac_list OpenResult.otherError = Except.error () ∧
    load_uuid128_list OpenResult.otherError = Except.error () :=
  ⟨rfl, rfl⟩

/-- C3, amended: a missing file (FileNotFoundError) yields the absent state
with the warning printed and is not fatal; any other open failure
propagates as an exception; a readable file yields exactly the set of its
lines with per-line whitespace stripped, blank lines discarded, and case
normalized (uppercase for MACs, lowercase for UUIDs). -/
theorem c3_amended (lines : List String) (x : String) :
    load_mac_list OpenResult.fileNotFound = Except.ok (none, true) ∧
    load_uuid128_list OpenResult.fileNotFound = Except.ok (none, true) ∧
    load_mac_list (OpenResult.ok lines) =
      Except.ok (some (normalizeLines py_upper lines), false) ∧
    load_uuid128_list (OpenResult.ok lines) =
      Except.ok (some (normalizeLines py_lower lines), false) ∧
    (x ∈ normalizeLines py_upper lines ↔
      ∃ l ∈ lines, l.trim ≠ "" ∧ x = py_upper l.trim) ∧
    (x ∈ normalizeLines py_lower lines ↔
      ∃ l ∈ lines, l.trim ≠ "" ∧ x = py_lower l.trim) :=
  ⟨rfl, rfl, rfl, rfl, mem_normalizeLines _ lines x, mem_normalizeLines _ lines x⟩

/-- C4: for a type-1 payload of length at least 3 (in the manufacturer
variant, registered under company id 0xFFFF), the decoded value is the
signed little-endian 16-bit integer of bytes 1-2 (characterized by its range
and congruence mod 65536), and in both variants the printed temperature is
that integer divided by 100. -/
theorem c4_temperature_value_and_display (lo hi : Nat) (rest : List Nat)
    (dev : Device) (ad : AdvertisementData) (rssi : Int) (u : String)
    (hlo : lo < 256) (hhi : hi < 256)
    (hman : manuGet ad.manufacturer_data 0xFFFF = some (1 :: lo :: hi :: rest)) :
    (-32768 ≤ unpack_s16le lo hi ∧ unpack_s16le lo hi < 32768 ∧
      unpack_s16le lo hi % 65536 = ((lo : ℤ) + 256 * (hi : ℤ)) % 65536) ∧
    callbackManu none dev ad =
      [LineM.temp dev.address ad.rssi ((unpack_s16le lo hi : ℚ) / 100)
        (dev.name.getD "Desconhecido")] ∧
    processPair none dev rssi u (1 :: lo :: hi :: rest) =
      [LineU.temp dev.address rssi ((unpack_s16le lo hi : ℚ) / 100) u
        (dev.name.getD "Desconhecido")] := by
  refine ⟨?_, ?_, ?_⟩
  · simp only [unpack_s16le, Nat.mod_eq_of_lt hlo, Nat.mod_eq_of_lt hhi]
    split <;> push_cast <;> omega
  · simp [callbackManu, truthy, parse_sensor_type_and_value, hman]
  · simp [processPair, parse_service_data]

/-- C4 witness: bytes DC 09 give raw value 2524 and display 25.24. -/
theorem c4_witness :
    unpack_s16le 0xDC 0x09 = 2524 ∧
    callbackManu none ⟨"AA:BB:CC:DD:EE:FF", none⟩
        ⟨[(0xFFFF, [1, 0xDC, 0x09])], [], -40⟩ =
      [LineM.temp "AA:BB:CC:DD:EE:FF" (-40) ((unpack_s16le 0xDC 0x09 : ℚ) / 100)
        "Desconhecido"] :=
  ⟨by decide,
   (c4_temperature_value_and_display 0xDC 0x09 [] ⟨"AA:BB:CC:DD:EE:FF", none⟩
      ⟨[(0xFFFF, [1, 0xDC, 0x09])], [], -40⟩ (-40) "u"
      (by decide) (by decide) (by decide)).2.1⟩

/-- C5: in the service-data variant, service-data pairs are processed
independently (the output over a concatenation of pairs is the concatenation
of the outputs), a pair whose uuid is absent from an enabled uuid allow-list
contributes nothing, and an event with two entries of which exactly one uuid
is on the active allow-list yields exactly the one reading of the listed
uuid. -/
theorem c5_service_pairs_independent (dev : Device) (uf : Option (List String)) :
    (∀ (s : List String) (u : String) (p : List Nat) (rssi : Int),
        u ∉ s → processPair (some s) dev rssi u p = []) ∧
    (∀ (md : List (Nat × List Nat)) (rssi : Int) (l1 l2 : List (String × List Nat)),
        callbackU none uf dev ⟨md, l1 ++ l2, rssi⟩ =
          callbackU none uf dev ⟨md, l1, rssi⟩ ++ callbackU none uf dev ⟨md, l2, rssi⟩) ∧
    (∀ (u1 u2 : String) (p2 : List Nat) (md : List (Nat × List Nat)) (rssi : Int),
        py_lower u2 ∉ [py_lower u1] →
        callbackU none (some [py_lower u1]) dev
            ⟨md, [(u1, [0x01, 0x64, 0x00]), (u2, p2)], rssi⟩ =
          [LineU.temp dev.address rssi ((unpack_s16le 0x64 0x00 : ℚ) / 100) (py_lower u1)
            (dev.name.getD "Desconhecido")]) := by
  refine ⟨?_, ?_, ?_⟩
  · intro s u p rssi h
    simp [processPair, h]
  · intro md rssi l1 l2
    simp [callbackU, get_service_data_payload]
  · intro u1 u2 p2 md rssi h
    have h2 : ¬ py_lower u2 = py_lower u1 := by simpa using h
    simp [callbackU, get_service_data_payload, processPair, parse_service_data, h2]

/-- C5 witness at a concrete two-entry event. -/
theorem c5_witness :
    processPair (some ["aa"]) ⟨"A", none⟩ (-1) "bb" [1, 2, 3] = [] ∧
    callbackU none none ⟨"A", none⟩ ⟨[], [("a", [1])] ++ [("b", [2])], -1⟩ =
      callbackU none none ⟨"A", none⟩ ⟨[], [("a", [1])], -1⟩ ++
        callbackU none none ⟨"A", none⟩ ⟨[], [("b", [2])], -1⟩ ∧
    callbackU none (some [py_lower "U1"]) ⟨"A", none⟩
        ⟨[], [("U1", [0x01, 0x64, 0x00]), ("u2", [5])], -1⟩ =
      [LineU.temp "A" (-1) ((unpack_s16le 0x64 0x00 : ℚ) / 100) (py_lower "U1")
        "Desconhecido"] := by
  obtain ⟨h1, h2, h3⟩ := c5_service_pairs_independent ⟨"A", none⟩ none
  exact ⟨h1 ["aa"] "bb" [1, 2, 3] (-1) (by decide),
         h2 [] (-1) [("a", [1])] [("b", [2])],
         h3 "U1" "u2" [5] [] (-1) (by decide)⟩

/-- C6: in the manufacturer variant the reading candidate comes from the
payload registered under company id 0xFFFF only (events agreeing there
decode alike), an absent or under-3-byte payload drops the event, and every
event yields at most one printed line. -/
theorem c6_manu_single_candidate (mf : Option (List String)) (dev : Device)
    (ad : AdvertisementData) :
    (callbackManu mf dev ad).length ≤ 1 ∧
    (manuGet ad.manufacturer_data 0xFFFF = none → callbackManu mf dev ad = []) ∧
    (∀ p, manuGet ad.manufacturer_data 0xFFFF = some p → p.length < 3 →
      callbackManu mf dev ad = []) ∧
    (∀ ad2 : AdvertisementData,
      manuGet ad2.manufacturer_data 0xFFFF = manuGet ad.manufacturer_data 0xFFFF →
      parse_sensor_type_and_value ad2 = parse_sensor_type_and_value ad) := by
  refine ⟨?_, ?_, ?_, ?_⟩
  · unfold callbackManu
    split
    · simp
    · split
      · simp
      · split
        · simp
        · split <;> simp
  · intro h
    unfold callbackManu
    split
    · rfl
    · simp [parse_sensor_type_and_value, h]
  · intro p h hlen
    unfold callbackManu
    split
    · rfl
    · rcases p with _ | ⟨a, _ | ⟨b, _ | ⟨c, t⟩⟩⟩
      · simp [parse_sensor_type_and_value, h]
      · simp [parse_sensor_type_and_value, h]
      · simp [parse_sensor_type_and_value, h]
      · simp at hlen; omega
  · intro ad2 h
    simp [parse_sensor_type_and_value, h]

/-- C6 witness: a 2-byte payload under 0xFFFF is dropped. -/
theorem c6_witness :
    (callbackManu none ⟨"A", none⟩ ⟨[(0xFFFF, [1, 2])], [], -1⟩).length ≤ 1 ∧
    callbackManu none ⟨"A", none⟩ ⟨[(0xFFFF, [1, 2])], [], -1⟩ = [] := by
  obtain ⟨h1, _, h3, _⟩ :=
    c6_manu_single_candidate none ⟨"A", none⟩ ⟨[(0xFFFF, [1, 2])], [], -1⟩
  exact ⟨h1, h3 [1, 2] (by decide) (by decide)⟩

/-- C7: a payload whose first byte is 0 (the reserved sensor type) never
produces output: the manufacturer variant prints nothing for the event, and
the service-data variant prints nothing for that service-data entry. -/
theorem c7_type_zero_silent (p : List Nat) (hp : p.head? = some 0) :
    (∀ (mf : Option (List String)) (dev : Device) (ad : AdvertisementData),
      manuGet ad.manufacturer_data 0xFFFF = some p → callbackManu mf dev ad = []) ∧
    (∀ (uf : Option (List String)) (dev : Device) (rssi : Int) (u : String),
      processPair uf dev rssi u p = []) := by
  rcases p with _ | ⟨t, rest⟩
  · simp at hp
  · simp only [List.head?_cons, Option.some.injEq] at hp
    subst hp
    constructor
    · intro mf dev ad h
      unfold callbackManu
      split
      · rfl
      · rcases rest with _ | ⟨b1, _ | ⟨b2, t⟩⟩ <;>
          simp [parse_sensor_type_and_value, h]
    · intro uf dev rssi u
      unfold processPair
      split
      · rfl
      · simp [parse_service_data]

/-- C7 witness at the concrete payload [0, 220, 9]. -/
theorem c7_witness :
    callbackManu none ⟨"A", none⟩ ⟨[(0xFFFF, [0, 220, 9])], [], -1⟩ = [] ∧
    processPair none ⟨"A", none⟩ (-1) "u" [0, 220, 9] = [] := by
  obtain ⟨h1, h2⟩ := c7_type_zero_silent [0, 220, 9] (by decide)
  exact ⟨h1 none ⟨"A", none⟩ ⟨[(0xFFFF, [0, 220, 9])], [], -1⟩ (by decide),
         h2 none ⟨"A", none⟩ (-1) "u"⟩

set_option maxRecDepth 40000 in
/-- C8: a sensor type other than 0 and 1 that passes the admission rule of
its variant is reported as an unknown sensor whose type code is rendered in
two-digit uppercase hexadecimal. -/
theorem c8_unknown_sensor_hex (t : Nat) (ht : t < 256) (h0 : t ≠ 0) (h1 : t ≠ 1) :
    ((format02X t).length = 2 ∧
      ∀ c ∈ (format02X t).data, c ∈ "0123456789ABCDEF".data) ∧
    (∀ (dev : Device) (ad : AdvertisementData) (rest : List Nat),
      manuGet ad.manufacturer_data 0xFFFF = some (t :: rest) → 2 ≤ rest.length →
      callbackManu none dev ad =
        [LineM.unknown dev.address ad.rssi (format02X t) (dev.name.getD "Desconhecido")]) ∧
    (∀ (dev : Device) (rssi : Int) (u : String) (rest : List Nat),
      processPair none dev rssi u (t :: rest) =
        [LineU.unknown dev.address rssi (format02X t) u (dev.name.getD "Desconhecido")]) := by
  refine ⟨?_, ?_, ?_⟩
  · have key : ∀ n : Nat, n < 256 →
        ((format02X n).length = 2 ∧ ∀ c ∈ (format02X n).data, c ∈ "0123456789ABCDEF".data) := by
      decide
    exact key t ht
  · intro dev ad rest h hlen
    rcases rest with _ | ⟨b1, _ | ⟨b2, r⟩⟩
    · simp at hlen
    · simp at hlen
    · simp [callbackManu, truthy, parse_sensor_type_and_value, h, h0, h1]
  · intro dev rssi u rest
    simp [processPair, parse_service_data, h0, h1]

/-- C8 witness: type 0x0A renders as the two uppercase hex digits 0A. -/
theorem c8_witness :
    format02X 10 = "0A" ∧
    processPair none ⟨"A", none⟩ (-1) "u" [10] =
      [LineU.unknown "A" (-1) (format02X 10) "u" "Desconhecido"] :=
  ⟨by decide,
   (c8_unknown_sensor_hex 10 (by decide) (by decide) (by decide)).2.2
     ⟨"A", none⟩ (-1) "u" []⟩

/-- C9: a payload of length 0, or an absent manufacturer payload, yields no
reading: both decoders return nothing and the candidates are silently
dropped. -/
theorem c9_empty_payload_no_reading (ad : AdvertisementData)
    (h : manuGet ad.manufacturer_data 0xFFFF = none ∨
         manuGet ad.manufacturer_data 0xFFFF = some []) :
    parse_service_data [] = none ∧
    (∀ (uf : Option (List String)) (dev : Device) (rssi : Int) (u : String),
      processPair uf dev rssi u [] = []) ∧
    parse_sensor_type_and_value ad = none ∧
    (∀ (mf : Option (List String)) (dev : Device), callbackManu mf dev ad = []) := by
  have hparse : parse_sensor_type_and_value ad = none := by
    rcases h with h | h <;> simp [parse_sensor_type_and_value, h]
  refine ⟨rfl, ?_, hparse, ?_⟩
  · intro uf dev rssi u
    unfold processPair
    split
    · rfl
    · simp [parse_service_data]
  · intro mf dev
    unfold callbackManu
    split
    · rfl
    · simp [hparse]

/-- C9 witness at an event carrying an empty payload under 0xFFFF. -/
theorem c9_witness :
    parse_sensor_type_and_value ⟨[(0xFFFF, [])], [], -1⟩ = none ∧
    callbackManu none ⟨"A", none⟩ ⟨[(0xFFFF, [])], [], -1⟩ = [] ∧
    processPair none ⟨"A", none⟩ (-1) "u" [] = [] := by
  obtain ⟨_, h2, h3, h4⟩ :=
    c9_empty_payload_no_reading ⟨[(0xFFFF, [])], [], -1⟩ (Or.inr (by decide))
  exact ⟨h3, h4 none ⟨"A", none⟩, h2 none ⟨"A", none⟩ (-1) "u"⟩

/-- C10: decoding and the payload-derived content of the rendered line depend
only on the first three bytes of the payload: two payloads of length at
least 3 agreeing on bytes 0-2 decode identically in both variants and render
identically on otherwise-identical events. -/
theorem c10_only_first_three_bytes (p q : List Nat)
    (hp : 3 ≤ p.length) (hq : 3 ≤ q.length) (h3 : p.take 3 = q.take 3) :
    parse_service_data p = parse_service_data q ∧
    (∀ (uf : Option (List String)) (dev : Device) (rssi : Int) (u : String),
      processPair uf dev rssi u p = processPair uf dev rssi u q) ∧
    (∀ (mf : Option (List String)) (dev : Device) (ad1 ad2 : AdvertisementData),
      ad1.rssi = ad2.rssi →
      manuGet ad1.manufacturer_data 0xFFFF = some p →
      manuGet ad2.manufacturer_data 0xFFFF = some q →
      callbackManu mf dev ad1 = callbackManu mf dev ad2) := by
  rcases p with _ | ⟨a, _ | ⟨b, _ | ⟨c, t1⟩⟩⟩
  · simp at hp
  · simp at hp
  · simp at hp
  · rcases q with _ | ⟨d, _ | ⟨e, _ | ⟨f, t2⟩⟩⟩
    · simp at hq
    · simp at hq
    · simp at hq
    · simp only [List.take, List.cons.injEq, and_true] at h3
      obtain ⟨rfl, rfl, rfl⟩ := h3
      refine ⟨?_, ?_, ?_⟩
      · simp [parse_service_data]
      · intro uf dev rssi u
        unfold processPair
        split
        · rfl
        · simp [parse_service_data]
      · intro mf dev ad1 ad2 hrssi h1 h2
        unfold callbackManu
        simp [parse_sensor_type_and_value, h1, h2, hrssi]

/-- C10 witness: payloads [1, 2, 3, 99] and [1, 2, 3] behave identically. -/
theorem c10_witness :
    parse_service_data [1, 2, 3, 99] = parse_service_data [1, 2, 3] ∧
    processPair none ⟨"A", none⟩ (-1) "u" [1, 2, 3, 99] =
      processPair none ⟨"A", none⟩ (-1) "u" [1, 2, 3] := by
  obtain ⟨h1, h2, _⟩ :=
    c10_only_first_three_bytes [1, 2, 3, 99] [1, 2, 3] (by decide) (by decide) (by decide)
  exact ⟨h1, h2 none ⟨"A", none⟩ (-1) "u"⟩

/-- C3 witness for the amended theorem at a one-line file. -/
theorem c3_amended_witness :
    load_mac_list OpenResult.fileNotFound = Except.ok (none, true) ∧
    load_uuid128_list OpenResult.fileNotFound = Except.ok (none, true) ∧
    load_mac_list (OpenResult.ok ["  aa:bb "]) =
      Except.ok (some (normalizeLines py_upper ["  aa:bb "]), false) ∧
    load_uuid128_list (OpenResult.ok ["  aa:bb "]) =
      Except.ok (some (normalizeLines py_lower ["  aa:bb "]), false) ∧
    ("AA:BB" ∈ normalizeLines py_upper ["  aa:bb "] ↔
      ∃ l ∈ ["  aa:bb "], l.trim ≠ "" ∧ "AA:BB" = py_upper l.trim) ∧
    ("AA:BB" ∈ normalizeLines py_lower ["  aa:bb "] ↔
      ∃ l ∈ ["  aa:bb "], l.trim ≠ "" ∧ "AA:BB" = py_lower l.trim) :=
  c3_amended ["  aa:bb "] "AA:BB"
